import Mathlib

/-!
Shallow embedding of the R1-Control accessory-protocol layer (src/aoa/aoa.go)
and the device lifecycle manager (the `device` package in
src/internal/config/config.go), with theorems settling the spec claims.

Modelling conventions:
* Go `byte`/`uint16` values are `Nat`s, reduced with `% 256` / division where
  the Go code performs integer narrowing.
* Time is `Nat` milliseconds; `time.Since(t)` at instant `now` is `now - t`
  (truncated subtraction; the Go monotonic clock never yields a negative
  elapsed duration).
* Each USB control transfer is recorded as a `Transfer` value in the order the
  code issues it; an oracle `ok : Nat -> Bool` gives the success of the i-th
  transfer issued by the operation being modelled (errors of ignored
  best-effort sends simply do not influence control flow, as in the source).
* Fallible operations return the new state, the list of issued transfers, and
  an error indication.
-/

namespace R1Control

/-- One USB vendor control transfer as issued by `Device.controlTransfer`
(src/aoa/aoa.go): request code, `wValue`, `wIndex`, and payload bytes. -/
structure Transfer where
  bRequest : Nat
  wValue : Nat
  wIndex : Nat
  data : List Nat
deriving DecidableEq, Repr

/-- `reqRegisterHID` (aoa.go): ACCESSORY_REGISTER_HID. -/
def reqRegisterHID : Nat := 54

/-- `reqUnregisterHID` (aoa.go): ACCESSORY_UNREGISTER_HID. -/
def reqUnregisterHID : Nat := 55

/-- `reqSetHIDDesc` (aoa.go): ACCESSORY_SET_HID_REPORT_DESC. -/
def reqSetHIDDesc : Nat := 56

/-- `reqSendHIDEvent` (aoa.go): ACCESSORY_SEND_HID_EVENT. -/
def reqSendHIDEvent : Nat := 57

/-- Builds the transfer issued by `Device.controlTransfer` (aoa.go). -/
def controlT (bRequest wValue wIndex : Nat) (data : List Nat) : Transfer :=
  ⟨bRequest, wValue, wIndex, data⟩

/-- `TouchReport` (aoa.go): builds the 5-byte touch screen report
`[flags, x&0xFF, x>>8, y&0xFF, y>>8]` with `flags = 0x03` when the finger
is touching. The Go parameters are `uint16`; the byte narrowing of
`byte(x & 0xFF)` is `% 256`, and `byte(x >> 8)` is `/ 256 % 256` (the
outer `% 256` is the identity for `uint16` inputs). -/
def TouchReport (tip : Bool) (x y : Nat) : List Nat :=
  let flags : Nat := if tip then 0x03 else 0x00
  [flags, x % 256, x / 256 % 256, y % 256, y / 256 % 256]

/-- `DescKeyboard` (aoa.go, `DescriptorType` iota). -/
def DescKeyboard : Nat := 0

/-- `DescConsumerControl` (aoa.go). -/
def DescConsumerControl : Nat := 1

/-- `DescSystemControl` (aoa.go). -/
def DescSystemControl : Nat := 2

/-- `DescCameraControl` (aoa.go). -/
def DescCameraControl : Nat := 3

/-- `DescTouchScreen` (aoa.go). -/
def DescTouchScreen : Nat := 4

/-- `keyboardDescriptor` (aoa.go). -/
def keyboardDescriptor : List Nat :=
  [0x05, 0x01, 0x09, 0x06, 0xA1, 0x01,
   0x05, 0x07, 0x19, 0xE0, 0x29, 0xE7, 0x15, 0x00, 0x25, 0x01,
   0x75, 0x01, 0x95, 0x08, 0x81, 0x02,
   0x95, 0x01, 0x75, 0x08, 0x81, 0x01,
   0x95, 0x06, 0x75, 0x08, 0x15, 0x00, 0x26, 0xFF, 0x00,
   0x05, 0x07, 0x19, 0x00, 0x29, 0xFF, 0x81, 0x00, 0xC0]

/-- `consumerDescriptor` (aoa.go). -/
def consumerDescriptor : List Nat :=
  [0x05, 0x0C, 0x09, 0x01, 0xA1, 0x01, 0x15, 0x00, 0x26, 0xFF, 0x0F,
   0x19, 0x00, 0x2A, 0xFF, 0x0F, 0x75, 0x10, 0x95, 0x01, 0x81, 0x00, 0xC0]

/-- `systemControlDescriptor` (aoa.go). -/
def systemControlDescriptor : List Nat :=
  [0x05, 0x01, 0x09, 0x80, 0xA1, 0x01, 0x15, 0x01, 0x25, 0x03,
   0x09, 0x81, 0x09, 0x82, 0x09, 0x83, 0x75, 0x08, 0x95, 0x01, 0x81, 0x00, 0xC0]

/-- `cameraControlDescriptor` (aoa.go). -/
def cameraControlDescriptor : List Nat :=
  [0x05, 0x90, 0x09, 0x20, 0xA1, 0x01, 0x15, 0x00, 0x25, 0x01,
   0x75, 0x01, 0x95, 0x01, 0x09, 0x20, 0x81, 0x02, 0x09, 0x21, 0x81, 0x02,
   0x95, 0x06, 0x81, 0x03, 0xC0]

/-- `touchScreenDescriptor` (aoa.go). -/
def touchScreenDescriptor : List Nat :=
  [0x05, 0x0D, 0x09, 0x04, 0xA1, 0x01, 0x09, 0x22, 0xA1, 0x02,
   0x09, 0x42, 0x15, 0x00, 0x25, 0x01, 0x75, 0x01, 0x95, 0x01, 0x81, 0x02,
   0x09, 0x32, 0x81, 0x02,
   0x75, 0x06, 0x95, 0x01, 0x81, 0x03,
   0x05, 0x01, 0x09, 0x30, 0x15, 0x00, 0x26, 0xFF, 0x7F,
   0x75, 0x10, 0x95, 0x01, 0x81, 0x02,
   0x09, 0x31, 0x81, 0x02, 0xC0, 0xC0]

/-- `GetDescriptor` (aoa.go): the switch over `DescriptorType`, `nil` (here
`none`) in the default case. The Go `DescriptorType` is an `int`; every value
other than the five named constants hits the default case, which the `Nat`
domain with a catch-all models faithfully. -/
def GetDescriptor (dt : Nat) : Option (List Nat) :=
  if dt = DescKeyboard then some keyboardDescriptor
  else if dt = DescConsumerControl then some consumerDescriptor
  else if dt = DescSystemControl then some systemControlDescriptor
  else if dt = DescCameraControl then some cameraControlDescriptor
  else if dt = DescTouchScreen then some touchScreenDescriptor
  else none

/-- `Device` (aoa.go): the session state relevant to the protocol logic.
The `ctx`/`dev` libusb handles are modelled by the session's existence,
`serial` is never written by the code and is omitted. -/
structure Device where
  nextHIDID : Nat
  registered : List Nat
  lastHIDID : Nat
deriving DecidableEq, Repr

/-- The `Device` value `Open` constructs on success (aoa.go:397):
`nextHIDID` starts at 1, no registrations. -/
def openedDev : Device := ⟨1, [], 0⟩

/-- The Go selection loop in `Open` (aoa.go:382-389): iterates over the
enumerated devices and keeps overwriting `dev` with each match, so the final
value is the last matching device. `i` is the index of the current element,
`acc` the index of the match seen so far. -/
def openLoop (serial : String) : Nat → Option Nat → List String → Option Nat
  | _, acc, [] => acc
  | i, acc, s :: rest =>
      openLoop serial (i + 1) (if serial = "" ∨ s = serial then some i else acc) rest

/-- `Open` (aoa.go): takes the serial filter, the serials of the enumerated
devices already matching the fixed vendor/product identity, and whether the
enumeration reported an error. Returns the index of the accepted device and
the fresh session state. -/
def aoaOpen (serial : String) (devs : List String) (enumErr : Bool) :
    Except String (Nat × Device) :=
  if enumErr ∧ devs = [] then .error "no Rabbit R1 found"
  else
    match openLoop serial 0 none devs with
    | some i => .ok (i, openedDev)
    | none => .error "R1 with serial not found"

/-- Result of `RegisterDescriptor`: new session state, issued transfers,
and either the assigned HID id or an error. -/
structure RegResult where
  dev : Device
  out : List Transfer
  res : Except String Nat
deriving Repr

/-- `RegisterDescriptor` (aoa.go): allocates the next id (consumed even if a
later transfer fails), issues REGISTER_HID then SET_HID_REPORT_DESC, and on
failure of the latter best-effort unregisters the id. `ok i` is the success
of the i-th transfer issued by this call. -/
def RegisterDescriptor (dt : Nat) (ok : Nat → Bool) (d : Device) : RegResult :=
  match GetDescriptor dt with
  | none => ⟨d, [], .error "unknown descriptor type"⟩
  | some desc =>
      let id := d.nextHIDID
      let d1 : Device := { d with nextHIDID := d.nextHIDID + 1 }
      let t0 := controlT reqRegisterHID id desc.length []
      if ok 0 then
        let t1 := controlT reqSetHIDDesc id 0 desc
        if ok 1 then
          ⟨{ d1 with registered := d1.registered ++ [id], lastHIDID := id },
           [t0, t1], .ok id⟩
        else
          ⟨d1, [t0, t1, controlT reqUnregisterHID id 0 []],
           .error "SET_HID_REPORT_DESC failed"⟩
      else ⟨d1, [t0], .error "REGISTER_HID failed"⟩

/-- `UnregisterDescriptor` (aoa.go): removes the most recently registered id
(LIFO), a no-op when none is registered. `ok` is the success of the single
unregister transfer. -/
def UnregisterDescriptor (ok : Bool) (d : Device) :
    Device × List Transfer × Except String Unit :=
  match d.registered.getLast? with
  | none => (d, [], .ok ())
  | some id =>
      ({ d with registered := d.registered.dropLast },
       [controlT reqUnregisterHID id 0 []],
       if ok then .ok () else .error "control transfer failed")

/-- One externally visible action of `Device.Close` (aoa.go): a control
transfer, the release of the device handle, or the release of the USB
context, in program order. -/
inductive DevAction
  | ctrl (t : Transfer)
  | closeHandle
  | closeCtx
deriving DecidableEq, Repr

/-- `Device.Close` (aoa.go:486-493): iterates `d.registered` front to back
issuing best-effort unregister transfers, clears the list, then releases the
device handle and the USB context. -/
def deviceClose (d : Device) : Device × List DevAction :=
  ({ d with registered := [] },
   d.registered.map (fun id => DevAction.ctrl (controlT reqUnregisterHID id 0 []))
     ++ [DevAction.closeHandle, DevAction.closeCtx])

/-- Runs a sequence of `RegisterDescriptor` attempts, recording for each
attempt with a known descriptor type the id it consumes (`d.nextHIDID` at
entry); attempts with an unknown type fail before consuming an id. -/
def runRegs (d : Device) : List (Nat × (Nat → Bool)) → Device × List Nat
  | [] => (d, [])
  | (dt, ok) :: rest =>
      let r := RegisterDescriptor dt ok d
      let tail := runRegs r.dev rest
      ((tail).1, (if (GetDescriptor dt).isSome then [d.nextHIDID] else []) ++ tail.2)

/-! ### Device lifecycle manager (package `device`, src/internal/config/config.go) -/

/-- `State` (config.go): the device/PTT state. -/
inductive State
  | Disconnected
  | Connected
  | PTTActive
deriving DecidableEq, Repr

/-- `powerDown` system control report (config.go). -/
def powerDown : List Nat := [0x01]

/-- `powerUp` system control report (config.go). -/
def powerUp : List Nat := [0x00]

/-- `wakeUp` system control report (config.go). -/
def wakeUp : List Nat := [0x03]

/-- `toggleThreshold` (config.go): 300 ms, in milliseconds. -/
def toggleThreshold : Nat := 300

/-- `Manager` (config.go). `dev` is the owned accessory session (may be
absent); times are milliseconds; `sleepAfterMinutes` is a Go `int`, modelled
as `Int`. The `onChange` observer callback is read-only for the Manager
state and is not modelled. -/
structure Manager where
  dev : Option Device
  state : State
  serial : String
  pttHIDID : Nat
  touchHIDID : Nat
  pttToggled : Bool
  pttPressTime : Nat
  swipeLeft : Bool
  keepAwake : Bool
  sleepAfterMinutes : Int
  lastActivity : Nat
  sleeping : Bool
deriving DecidableEq, Repr

/-- `NewManager` (config.go), created at instant `now` (`time.Now()`). -/
def NewManager (serial : String) (now : Nat) : Manager :=
  { dev := none, state := .Disconnected, serial := serial,
    pttHIDID := 0, touchHIDID := 0,
    pttToggled := false, pttPressTime := 0,
    swipeLeft := true, keepAwake := true, sleepAfterMinutes := 60,
    lastActivity := now, sleeping := false }

/-- `SetKeepAwake` (config.go): updates the settings and resets the idle
timer. -/
def SetKeepAwake (enabled : Bool) (mins : Int) (now : Nat) (m : Manager) : Manager :=
  { m with keepAwake := enabled, sleepAfterMinutes := mins,
           lastActivity := now, sleeping := false }

/-- `touchActivity` (config.go): resets the idle timer. -/
def touchActivity (now : Nat) (m : Manager) : Manager :=
  { m with lastActivity := now, sleeping := false }

/-- Result of a Manager operation: new state, issued transfers (in order),
and the returned error, `none` meaning a `nil` Go error. -/
structure MStep where
  mgr : Manager
  out : List Transfer
  err : Option String
deriving Repr

/-- `handleError` (config.go): marks the device as disconnected on a USB
error (closes and drops the session, clears the toggle flag). -/
def handleError (m : Manager) : Manager :=
  { m with dev := none, state := .Disconnected, pttToggled := false }

/-- `wake` (config.go): best-effort wake-up tap on the PTT channel — sends
`wakeUp`, and if that succeeded, `powerUp`. `ok i` is the success of the
i-th transfer of the enclosing operation; `wake` issues transfers 0 and
(when 0 succeeds) 1. -/
def wakeSeq (ok : Nat → Bool) (m : Manager) : List Transfer :=
  let t0 := controlT reqSendHIDEvent m.pttHIDID 0 wakeUp
  if ok 0 then [t0, controlT reqSendHIDEvent m.pttHIDID 0 powerUp] else [t0]

/-- `PTTDown` (config.go): records the press timestamp, resets the idle
timer; a no-op when PTT is already toggled on; otherwise wakes the screen
and sends the power-down report, transitioning to `PTTActive` on success. -/
def PTTDown (now : Nat) (ok : Nat → Bool) (m : Manager) : MStep :=
  if m.dev = none then ⟨m, [], some "no device connected"⟩
  else
    let m1 := touchActivity now { m with pttPressTime := now }
    if m1.pttToggled then ⟨m1, [], none⟩
    else
      let w := wakeSeq ok m1
      let t := controlT reqSendHIDEvent m1.pttHIDID 0 powerDown
      if ok w.length then ⟨{ m1 with state := .PTTActive }, w ++ [t], none⟩
      else ⟨handleError m1, w ++ [t], some "send report failed"⟩

/-- `PTTUp` (config.go): short press (< 300 ms) toggles PTT on/off, long
press always releases. -/
def PTTUp (now : Nat) (ok : Nat → Bool) (m : Manager) : MStep :=
  if m.dev = none then ⟨m, [], some "no device connected"⟩
  else
    let duration := now - m.pttPressTime
    if duration < toggleThreshold then
      if m.pttToggled then
        let m1 := { m with pttToggled := false }
        let t := controlT reqSendHIDEvent m.pttHIDID 0 powerUp
        if ok 0 then ⟨{ m1 with state := .Connected }, [t], none⟩
        else ⟨handleError m1, [t], some "send report failed"⟩
      else ⟨{ m with pttToggled := true }, [], none⟩
    else
      let m1 := { m with pttToggled := false }
      let t := controlT reqSendHIDEvent m.pttHIDID 0 powerUp
      if ok 0 then ⟨{ m1 with state := .Connected }, [t], none⟩
      else ⟨handleError m1, [t], some "send report failed"⟩

/-- The X coordinate of swipe step `i` (config.go:597-598):
`x := uint16(float64(startX) + t*float64(int(endX)-int(startX)))` with
`t := float64(i)/float64(steps)`, `steps = 8`. For the coordinates the code
uses (27000/5000 and `i ≤ 8`) every float64 intermediate is a dyadic
rational representable in 53 bits, so the computation is exact and the
`uint16` conversion truncates toward zero; the results are nonnegative, so
truncation is the floor of the exact rational value
`startX + (i/8)*(endX - startX)`, which this definition computes over `Int`
scaled by the denominator 8 (`Int.fdiv` is floor division). -/
def swipeX (startX endX : Nat) (i : Nat) : Nat :=
  (Int.fdiv (8 * startX + i * ((endX : Int) - (startX : Int))) 8).toNat

/-- The touch-down loop of `Swipe` (config.go:596-607), started at step `i`
with `k` steps remaining: sends the interpolated touch report for each step,
stopping at (and including) the first failed transfer. `ok j` is the success
of the transfer for step `j`. Returns the issued transfers and whether every
send succeeded. -/
def swipeDowns (hid : Nat) (ok : Nat → Bool) (startX endX y : Nat) :
    Nat → Nat → List Transfer × Bool
  | _, 0 => ([], true)
  | i, k + 1 =>
      let t := controlT reqSendHIDEvent hid 0 (TouchReport true (swipeX startX endX i) y)
      if ok i then
        let r := swipeDowns hid ok startX endX y (i + 1) k
        (t :: r.1, r.2)
      else ([t], false)

/-- `Swipe` (config.go): one full swipe gesture. Resets the idle timer,
wakes the screen, flips the remembered direction, sends 9 interpolated
touch-down reports (steps 0..8) and a final touch-up at the terminal X;
any failed report aborts the gesture and triggers the disconnect path. -/
def Swipe (now : Nat) (ok : Nat → Bool) (m : Manager) : MStep :=
  if m.dev = none then ⟨m, [], some "no device connected"⟩
  else
    let m1 := touchActivity now m
    let w := wakeSeq ok m1
    let startX : Nat := if m1.swipeLeft then 27000 else 5000
    let endX : Nat := if m1.swipeLeft then 5000 else 27000
    let m2 := { m1 with swipeLeft := !m1.swipeLeft }
    let y : Nat := 32590
    let downs := swipeDowns m2.touchHIDID (fun j => ok (w.length + j)) startX endX y 0 9
    if downs.2 then
      let lift := controlT reqSendHIDEvent m2.touchHIDID 0 (TouchReport false endX y)
      if ok (w.length + 9) then ⟨m2, w ++ downs.1 ++ [lift], none⟩
      else ⟨handleError m2, w ++ downs.1 ++ [lift], some "swipe lift failed"⟩
    else ⟨handleError m2, w ++ downs.1, some "swipe step failed"⟩

/-- `keepAwakePing` (config.go): no-op unless connected with keep-awake
enabled; when a positive idle threshold has been reached it sets the
`sleeping` flag (logging once) and sends nothing; otherwise it issues the
two-step keep-alive (wake/release on the PTT channel, then a touch tap at
(32590, 32590) on the touch channel), all best-effort with errors ignored. -/
def keepAwakePing (now : Nat) (m : Manager) : MStep :=
  if m.dev = none ∨ m.state ≠ State.Connected then ⟨m, [], none⟩
  else if m.keepAwake = false then ⟨m, [], none⟩
  else if 0 < m.sleepAfterMinutes ∧ m.sleepAfterMinutes * 60000 ≤ ((now - m.lastActivity : Nat) : Int) then
    if m.sleeping then ⟨m, [], none⟩ else ⟨{ m with sleeping := true }, [], none⟩
  else
    ⟨m, [controlT reqSendHIDEvent m.pttHIDID 0 wakeUp,
         controlT reqSendHIDEvent m.pttHIDID 0 powerUp,
         controlT reqSendHIDEvent m.touchHIDID 0 (TouchReport true 32590 32590),
         controlT reqSendHIDEvent m.touchHIDID 0 (TouchReport false 32590 32590)], none⟩

/-- `tryConnect` (config.go): opens the accessory (enumerated serials
`devs`, enumeration error flag `enumErr`), registers the System Control and
Touch Screen descriptors (success oracles `ok1`, `ok2`), and on full success
installs the session, resets the toggle flag and idle timer, and immediately
runs a keep-awake ping. Any failure leaves the Manager unchanged. -/
def tryConnect (devs : List String) (enumErr : Bool) (ok1 ok2 : Nat → Bool)
    (now : Nat) (m : Manager) : Manager :=
  match aoaOpen m.serial devs enumErr with
  | .error _ => m
  | .ok (_, d) =>
      let r1 := RegisterDescriptor DescSystemControl ok1 d
      match r1.res with
      | .error _ => m
      | .ok pttID =>
          let r2 := RegisterDescriptor DescTouchScreen ok2 r1.dev
          match r2.res with
          | .error _ => m
          | .ok touchID =>
              let m1 := { m with dev := some r2.dev, state := State.Connected,
                                 pttHIDID := pttID, touchHIDID := touchID,
                                 pttToggled := false, lastActivity := now,
                                 sleeping := false }
              (keepAwakePing now m1).mgr

/-- `healthCheck` (config.go): when a session exists and its ping fails,
closes and drops the session, clears the toggle flag, and transitions to
`Disconnected`. -/
def healthCheck (pingOK : Bool) (m : Manager) : Manager :=
  if m.dev = none then m
  else if pingOK then m
  else { m with dev := none, state := .Disconnected, pttToggled := false }

/-- `Manager.Close` (config.go): releases PTT if active (best-effort),
closes and drops the session, clears the toggle flag, and ends
`Disconnected`. -/
def MClose (m : Manager) : Manager :=
  { m with dev := none, state := .Disconnected, pttToggled := false }

/-- One Manager operation, with the environment data (current instant,
enumeration results, transfer success oracles) it is invoked under. -/
inductive Op
  | connect (devs : List String) (enumErr : Bool) (ok1 ok2 : Nat → Bool) (now : Nat)
  | health (pingOK : Bool)
  | down (now : Nat) (ok : Nat → Bool)
  | up (now : Nat) (ok : Nat → Bool)
  | swipe (now : Nat) (ok : Nat → Bool)
  | tick (now : Nat)
  | close

/-- Applies one operation to the Manager state. -/
def stepOp (m : Manager) : Op → Manager
  | .connect devs enumErr ok1 ok2 now => tryConnect devs enumErr ok1 ok2 now m
  | .health pingOK => healthCheck pingOK m
  | .down now ok => (PTTDown now ok m).mgr
  | .up now ok => (PTTUp now ok m).mgr
  | .swipe now ok => (Swipe now ok m).mgr
  | .tick now => (keepAwakePing now m).mgr
  | .close => MClose m

/-- Runs a sequence of operations. -/
def runOps (m : Manager) : List Op → Manager
  | [] => m
  | op :: ops => runOps (stepOp m op) ops

/-- The swipe endpoint pair `(startX, endX)` determined by the direction
flag (config.go:584-588). -/
def dirOf (left : Bool) : Nat × Nat := if left then (27000, 5000) else (5000, 27000)

/-- The endpoint pairs of the swipe gestures a run of operations emits: one
entry per `Swipe` invocation that finds a session present (invocations
without a session return before choosing a direction). -/
def runDirs (m : Manager) : List Op → List (Nat × Nat)
  | [] => []
  | Op.swipe now ok :: ops =>
      if m.dev = none then runDirs (stepOp m (Op.swipe now ok)) ops
      else dirOf m.swipeLeft :: runDirs (stepOp m (Op.swipe now ok)) ops
  | op :: ops => runDirs (stepOp m op) ops

/-! ### Theorems for the spec claims -/

/-- The all-successes transfer oracle, used to instantiate theorems at
concrete inputs. -/
def allOK : Nat → Bool := fun _ => true

/-- Claim C8: the touch-report encoder is pure and total over
`(touching, x, y : uint16)` and produces exactly the 5 bytes
`[flags, x&0xFF, x>>8, y&0xFF, y>>8]` with `flags = 0x03` when touching and
`0x00` otherwise; in particular `(true, 100, 200)` yields
`[0x03, 0x64, 0x00, 0xC8, 0x00]` and `(false, 100, 200)` yields
`[0x00, 0x64, 0x00, 0xC8, 0x00]`. -/
theorem claim_C8 :
    (∀ (tip : Bool) (x y : Nat), x < 65536 → y < 65536 →
        TouchReport tip x y =
          [if tip then 0x03 else 0x00, x % 256, x / 256, y % 256, y / 256] ∧
        (TouchReport tip x y).length = 5) ∧
    TouchReport true 100 200 = [0x03, 0x64, 0x00, 0xC8, 0x00] ∧
    TouchReport false 100 200 = [0x00, 0x64, 0x00, 0xC8, 0x00] := by
  refine ⟨fun tip x y hx hy => ?_, by decide, by decide⟩
  have hx2 : x / 256 < 256 := by omega
  have hy2 : y / 256 < 256 := by omega
  simp [TouchReport, Nat.mod_eq_of_lt hx2, Nat.mod_eq_of_lt hy2]

/-- Witness for C8 at `(true, 300, 500)`. -/
theorem claim_C8_witness :
    300 < 65536 ∧ 500 < 65536 ∧
    TouchReport true 300 500 =
      [if true then 0x03 else 0x00, 300 % 256, 300 / 256, 500 % 256, 500 / 256] :=
  ⟨by decide, by decide, (claim_C8.1 true 300 500 (by decide) (by decide)).1⟩

/-- Claim C10: when no accessory session exists (`m.dev = none`), each of
`PTTDown`, `PTTUp` and `Swipe` returns an error immediately, emits no
control transfers, and leaves the entire Manager state unchanged. -/
theorem claim_C10 (m : Manager) (now : Nat) (ok : Nat → Bool) (h : m.dev = none) :
    (PTTDown now ok m).mgr = m ∧ (PTTDown now ok m).out = [] ∧
      (PTTDown now ok m).err ≠ none ∧
    (PTTUp now ok m).mgr = m ∧ (PTTUp now ok m).out = [] ∧
      (PTTUp now ok m).err ≠ none ∧
    (Swipe now ok m).mgr = m ∧ (Swipe now ok m).out = [] ∧
      (Swipe now ok m).err ≠ none := by
  simp [PTTDown, PTTUp, Swipe, h]

/-- Witness for C10 on a freshly created Manager (no session). -/
theorem claim_C10_witness :
    (NewManager "" 0).dev = none ∧
    (Swipe 5 allOK (NewManager "" 0)).mgr = NewManager "" 0 ∧
    (Swipe 5 allOK (NewManager "" 0)).out = [] :=
  ⟨rfl, (claim_C10 (NewManager "" 0) 5 allOK rfl).2.2.2.2.2.2.1,
    (claim_C10 (NewManager "" 0) 5 allOK rfl).2.2.2.2.2.2.2.1⟩

/-- Claim C1: for every `PTTUp` on a connected device in `PTTActive` whose
release transfer succeeds: a short press (< 300 ms) with the toggle flag set
sends the release report, clears the flag and moves to `Connected`; a short
press with the flag clear sends nothing, sets the flag and stays in
`PTTActive`; a long press (≥ 300 ms) always sends the release report, clears
the flag and moves to `Connected`. -/
theorem claim_C1 (m : Manager) (now : Nat) (ok : Nat → Bool)
    (hdev : m.dev ≠ none) (hst : m.state = State.PTTActive) (hok : ok 0 = true) :
    (now - m.pttPressTime < 300 → m.pttToggled = true →
       (PTTUp now ok m).out = [controlT reqSendHIDEvent m.pttHIDID 0 powerUp] ∧
       (PTTUp now ok m).mgr.pttToggled = false ∧
       (PTTUp now ok m).mgr.state = State.Connected) ∧
    (now - m.pttPressTime < 300 → m.pttToggled = false →
       (PTTUp now ok m).out = [] ∧
       (PTTUp now ok m).mgr.pttToggled = true ∧
       (PTTUp now ok m).mgr.state = State.PTTActive) ∧
    (300 ≤ now - m.pttPressTime →
       (PTTUp now ok m).out = [controlT reqSendHIDEvent m.pttHIDID 0 powerUp] ∧
       (PTTUp now ok m).mgr.pttToggled = false ∧
       (PTTUp now ok m).mgr.state = State.Connected) := by
  refine ⟨fun hs ht => ?_, fun hs ht => ?_, fun hl => ?_⟩
  · simp [PTTUp, hdev, hok, ht, toggleThreshold, hs]
  · simp [PTTUp, hdev, ht, toggleThreshold, hs, hst]
  · simp [PTTUp, hdev, hok, toggleThreshold, Nat.not_lt.mpr hl]

/-- Witness for C1: short release at 100 ms with the toggle flag set. -/
theorem claim_C1_witness :
    (⟨some ⟨3, [1, 2], 2⟩, State.PTTActive, "", 1, 2, true, 0, true, true, 60, 0,
        false⟩ : Manager).dev ≠ none ∧
    (100 - (0 : Nat) < 300) ∧
    (PTTUp 100 allOK
        (⟨some ⟨3, [1, 2], 2⟩, State.PTTActive, "", 1, 2, true, 0, true, true, 60, 0,
          false⟩ : Manager)).mgr.state = State.Connected :=
  ⟨by decide, by decide,
    ((claim_C1 _ 100 allOK (by decide) rfl rfl).1 (by decide) rfl).2.2⟩

/-- Claim C6: a keep-awake tick emits zero control transfers whenever the
state is not `Connected`, or keep-awake is disabled, or a positive idle
threshold has been reached; in the idle case it sets the `sleeping` flag,
and once the flag is set, further ticks under the same conditions leave the
whole Manager state unchanged; activity (`touchActivity`) or a settings
change (`SetKeepAwake`) clears the flag. -/
theorem claim_C6 (m : Manager) (now : Nat) :
    ((m.state ≠ State.Connected ∨ m.keepAwake = false ∨
        (0 < m.sleepAfterMinutes ∧
          m.sleepAfterMinutes * 60000 ≤ ((now - m.lastActivity : Nat) : Int))) →
      (keepAwakePing now m).out = []) ∧
    (m.dev ≠ none → m.state = State.Connected → m.keepAwake = true →
      0 < m.sleepAfterMinutes →
      m.sleepAfterMinutes * 60000 ≤ ((now - m.lastActivity : Nat) : Int) →
      (keepAwakePing now m).out = [] ∧ (keepAwakePing now m).mgr.sleeping = true) ∧
    (m.sleeping = true → m.state = State.Connected → m.keepAwake = true →
      0 < m.sleepAfterMinutes →
      m.sleepAfterMinutes * 60000 ≤ ((now - m.lastActivity : Nat) : Int) →
      (keepAwakePing now m).mgr = m ∧ (keepAwakePing now m).out = []) ∧
    (∀ (b : Bool) (mins : Int),
      (touchActivity now m).sleeping = false ∧
      (SetKeepAwake b mins now m).sleeping = false) := by
  refine ⟨fun h => ?_, fun hdev hst hka hpos hidle => ?_,
    fun hsl hst hka hpos hidle => ?_, fun b mins => ⟨rfl, rfl⟩⟩
  · unfold keepAwakePing
    split
    · rfl
    · split
      · rfl
      · split
        · split <;> rfl
        · rename_i h1 h2 h3
          rcases h with h | h | h
          · exact absurd (Or.inr h) h1
          · exact absurd h h2
          · exact absurd h h3
  · unfold keepAwakePing
    rw [if_neg (by simp [hst, hdev]), if_neg (by simp [hka]), if_pos ⟨hpos, hidle⟩]
    split <;> simp_all
  · unfold keepAwakePing
    split
    · exact ⟨rfl, rfl⟩
    · rw [if_neg (by simp [hka]), if_pos ⟨hpos, hidle⟩]
      simp [hsl]

/-! ### Accessory-session lemmas (registration ids, open selection) -/

/-- A registration attempt with a known descriptor type advances the id
counter by exactly one, whatever the transfer outcomes. -/
theorem regDesc_next (dt : Nat) (ok : Nat → Bool) (d : Device)
    (h : (GetDescriptor dt).isSome) :
    (RegisterDescriptor dt ok d).dev.nextHIDID = d.nextHIDID + 1 := by
  rcases Option.isSome_iff_exists.mp h with ⟨desc, hd⟩
  unfold RegisterDescriptor
  rw [hd]
  dsimp only
  split
  · split
    · rfl
    · rfl
  · rfl

/-- A fully successful registration appends the consumed id to the
registration list. -/
theorem regDesc_dev_ok (dt : Nat) (ok : Nat → Bool) (d : Device) (desc : List Nat)
    (h : GetDescriptor dt = some desc) (h0 : ok 0 = true) (h1 : ok 1 = true) :
    (RegisterDescriptor dt ok d).dev =
      { d with nextHIDID := d.nextHIDID + 1,
               registered := d.registered ++ [d.nextHIDID],
               lastHIDID := d.nextHIDID } := by
  unfold RegisterDescriptor
  rw [h]
  simp [h0, h1]

/-- The ids consumed by a run of registration attempts with known
descriptor types are consecutive from the session's current counter,
independent of transfer failures. -/
theorem runRegs_ids (as : List (Nat × (Nat → Bool))) :
    ∀ d : Device, (∀ a ∈ as, (GetDescriptor a.1).isSome) →
      (runRegs d as).2 = List.range' d.nextHIDID as.length := by
  induction as with
  | nil => intro d _; rfl
  | cons a rest ih =>
      intro d h
      obtain ⟨dt, ok⟩ := a
      have hv : (GetDescriptor dt).isSome := h _ (List.mem_cons_self _ _)
      have hrest := ih (RegisterDescriptor dt ok d).dev
        (fun x hx => h x (List.mem_cons_of_mem _ hx))
      simp only [runRegs, hrest, regDesc_next dt ok d hv, hv, if_pos]
      simp [List.range'_succ]

/-- When every attempt has a known descriptor type and both of its
transfers succeed, the registration list grows by the consumed ids in
registration order. -/
theorem runRegs_registered (as : List (Nat × (Nat → Bool))) :
    ∀ d : Device,
      (∀ a ∈ as, (GetDescriptor a.1).isSome ∧ a.2 0 = true ∧ a.2 1 = true) →
      (runRegs d as).1.registered = d.registered ++ List.range' d.nextHIDID as.length := by
  induction as with
  | nil => intro d _; simp [runRegs]
  | cons a rest ih =>
      intro d h
      obtain ⟨dt, ok⟩ := a
      obtain ⟨hv, h0, h1⟩ := h _ (List.mem_cons_self _ _)
      rcases Option.isSome_iff_exists.mp hv with ⟨desc, hd⟩
      have hrest := ih (RegisterDescriptor dt ok d).dev
        (fun x hx => h x (List.mem_cons_of_mem _ hx))
      have hdev := regDesc_dev_ok dt ok d desc hd h0 h1
      rw [hdev] at hrest
      simp only [runRegs, hdev]
      rw [hrest]
      simp [List.range'_succ]

/-- The selection loop of `Open` returns its accumulator when no remaining
device matches the filter. -/
theorem openLoop_acc (s : String) :
    ∀ (l : List String) (i : Nat) (acc : Option Nat),
      (∀ j, j < l.length → ¬(s = "" ∨ l.get? j = some s)) →
      openLoop s i acc l = acc := by
  intro l
  induction l with
  | nil => intro i acc _; rfl
  | cons x rest ih =>
      intro i acc h
      have hx : ¬(s = "" ∨ x = s) := by simpa using h 0 (by simp)
      simp only [openLoop]
      rw [if_neg hx]
      exact ih (i + 1) acc fun j hj => by simpa using h (j + 1) (by simpa using hj)

/-- Soundness of the selection loop: a returned index is either the
accumulator or a matching position. -/
theorem openLoop_sound (s : String) :
    ∀ (l : List String) (i : Nat) (acc : Option Nat) (k : Nat),
      openLoop s i acc l = some k →
      acc = some k ∨ ∃ j, j < l.length ∧ (s = "" ∨ l.get? j = some s) ∧ k = i + j := by
  intro l
  induction l with
  | nil => intro i acc k h; exact Or.inl h
  | cons x rest ih =>
      intro i acc k h
      simp only [openLoop] at h
      by_cases hx : s = "" ∨ x = s
      · rw [if_pos hx] at h
        rcases ih (i + 1) (some i) k h with h' | ⟨j, hj, hm, rfl⟩
        · right
          refine ⟨0, by simp, by simpa using hx, ?_⟩
          have : i = k := Option.some.inj h'
          omega
        · right
          exact ⟨j + 1, by simpa using hj, by simpa using hm, by omega⟩
      · rw [if_neg hx] at h
        rcases ih (i + 1) acc k h with h' | ⟨j, hj, hm, rfl⟩
        · exact Or.inl h'
        · right
          exact ⟨j + 1, by simpa using hj, by simpa using hm, by omega⟩

/-- The selection loop keeps overwriting on each match, so the returned
index is at least every matching position: the accepted device is the last
match. -/
theorem openLoop_last (s : String) :
    ∀ (l : List String) (i : Nat) (acc : Option Nat) (k : Nat),
      openLoop s i acc l = some k →
      ∀ j, j < l.length → (s = "" ∨ l.get? j = some s) → i + j ≤ k := by
  intro l
  induction l with
  | nil => intro i acc k _ j hj; simp at hj
  | cons x rest ih =>
      intro i acc k h j hj hm
      simp only [openLoop] at h
      by_cases hx : s = "" ∨ x = s
      · rw [if_pos hx] at h
        cases j with
        | zero =>
            rcases openLoop_sound s rest (i + 1) (some i) k h with h' | ⟨j', _, _, rfl⟩
            · have : i = k := Option.some.inj h'
              omega
            · omega
        | succ j' =>
            have := ih (i + 1) (some i) k h j' (by simpa using hj) (by simpa using hm)
            omega
      · rw [if_neg hx] at h
        cases j with
        | zero => exact absurd (by simpa using hm) hx
        | succ j' =>
            have := ih (i + 1) acc k h j' (by simpa using hj) (by simpa using hm)
            omega

/-- The selection loop never loses a `some` accumulator. -/
theorem openLoop_keep (s : String) :
    ∀ (l : List String) (i : Nat) (acc : Option Nat),
      acc.isSome → (openLoop s i acc l).isSome := by
  intro l
  induction l with
  | nil => intro i acc h; exact h
  | cons x rest ih =>
      intro i acc h
      simp only [openLoop]
      split
      · exact ih (i + 1) (some i) rfl
      · exact ih (i + 1) acc h

/-- If some device matches, the selection loop returns an index. -/
theorem openLoop_found (s : String) :
    ∀ (l : List String) (i : Nat) (acc : Option Nat),
      (∃ j, j < l.length ∧ (s = "" ∨ l.get? j = some s)) →
      (openLoop s i acc l).isSome := by
  intro l
  induction l with
  | nil => rintro i acc ⟨j, hj, _⟩; simp at hj
  | cons x rest ih =>
      rintro i acc ⟨j, hj, hm⟩
      simp only [openLoop]
      by_cases hx : s = "" ∨ x = s
      · rw [if_pos hx]
        exact openLoop_keep s rest (i + 1) (some i) rfl
      · rw [if_neg hx]
        cases j with
        | zero => exact absurd (by simpa using hm) hx
        | succ j' => exact ih (i + 1) acc ⟨j', by simpa using hj, by simpa using hm⟩

/-- With an empty serial filter every enumerated device matches, so the
selection loop returns the index of the last device. -/
theorem openLoop_empty (l : List String) :
    ∀ (i : Nat) (acc : Option Nat), l ≠ [] →
      openLoop "" i acc l = some (i + l.length - 1) := by
  induction l with
  | nil => intro i acc h; exact absurd rfl h
  | cons x rest ih =>
      intro i acc _
      simp only [openLoop]
      rw [if_pos (by simp)]
      cases rest with
      | nil => simp [openLoop]
      | cons y t =>
          rw [ih (i + 1) (some i) (by simp)]
          congr 1
          simp only [List.length_cons]
          omega

/-- Claim C5 (confirmed): within one session, successive
`RegisterDescriptor` calls with known descriptor types consume strictly
ascending ids starting at 1, never reused, even across attempts whose
transfers fail partway. -/
theorem claim_C5 (as : List (Nat × (Nat → Bool)))
    (h : ∀ a ∈ as, (GetDescriptor a.1).isSome) :
    (runRegs openedDev as).2 = List.range' 1 as.length ∧
    List.Chain' (· < ·) (runRegs openedDev as).2 ∧
    (runRegs openedDev as).2.Nodup ∧
    (as ≠ [] → (runRegs openedDev as).2.head? = some 1) := by
  have hids : (runRegs openedDev as).2 = List.range' 1 as.length :=
    runRegs_ids as openedDev h
  refine ⟨hids, ?_, ?_, fun hne => ?_⟩
  · rw [hids]
    exact (List.pairwise_lt_range' 1 as.length).chain'
  · rw [hids]
    exact List.nodup_range' 1 as.length
  · rw [hids]
    cases as with
    | nil => exact absurd rfl hne
    | cons a rest => simp [List.range'_succ]

/-- Witness for C5: two attempts, the second failing partway, still consume
ids 1 and 2. -/
theorem claim_C5_witness :
    (∀ a ∈ [((DescSystemControl : Nat), allOK), ((DescTouchScreen : Nat), fun _ => false)],
        (GetDescriptor a.1).isSome) ∧
    (runRegs openedDev
        [((DescSystemControl : Nat), allOK), ((DescTouchScreen : Nat), fun _ => false)]).2 =
      [1, 2] :=
  ⟨by decide, (claim_C5 _ (by decide)).1⟩

/-- Counterexample to claim C3 as stated: after registering ids 1 then 2,
`Close` issues the unregister request for id 1 (the earliest) before the
one for id 2 (the most recent) — insertion order, not LIFO. -/
theorem claim_C3_counterexample :
    (runRegs openedDev [((DescSystemControl : Nat), allOK), ((DescTouchScreen : Nat), allOK)]).1.registered
        = [1, 2] ∧
    (deviceClose (runRegs openedDev
        [((DescSystemControl : Nat), allOK), ((DescTouchScreen : Nat), allOK)]).1).2 =
      [DevAction.ctrl (controlT reqUnregisterHID 1 0 []),
       DevAction.ctrl (controlT reqUnregisterHID 2 0 []),
       DevAction.closeHandle, DevAction.closeCtx] ∧
    ¬ (List.indexOf (DevAction.ctrl (controlT reqUnregisterHID 2 0 []))
          (deviceClose (runRegs openedDev
            [((DescSystemControl : Nat), allOK), ((DescTouchScreen : Nat), allOK)]).1).2 <
        List.indexOf (DevAction.ctrl (controlT reqUnregisterHID 1 0 []))
          (deviceClose (runRegs openedDev
            [((DescSystemControl : Nat), allOK), ((DescTouchScreen : Nat), allOK)]).1).2) := by
  decide

/-- Claim C3 (amended): `Close` unregisters the outstanding registrations
in registration (FIFO) order, best-effort, then releases the transport
handle and the USB context; with two or more registrations the earliest id
is unregistered first. -/
theorem claim_C3_amended (as : List (Nat × (Nat → Bool)))
    (h : ∀ a ∈ as, (GetDescriptor a.1).isSome ∧ a.2 0 = true ∧ a.2 1 = true) :
    (deviceClose (runRegs openedDev as).1).2 =
      (List.range' 1 as.length).map
        (fun id => DevAction.ctrl (controlT reqUnregisterHID id 0 [])) ++
      [DevAction.closeHandle, DevAction.closeCtx] ∧
    (2 ≤ as.length →
      (deviceClose (runRegs openedDev as).1).2.head? =
        some (DevAction.ctrl (controlT reqUnregisterHID 1 0 []))) := by
  have hreg := runRegs_registered as openedDev h
  constructor
  · simp only [deviceClose]
    rw [hreg]
    simp [openedDev]
  · intro h2
    obtain ⟨k, hk⟩ : ∃ k, as.length = k + 2 := ⟨as.length - 2, by omega⟩
    simp only [deviceClose]
    rw [hreg, hk]
    simp [openedDev, List.range'_succ]

/-- Witness for C3 (amended) at two successful registrations. -/
theorem claim_C3_witness :
    (∀ a ∈ [((DescSystemControl : Nat), allOK), ((DescTouchScreen : Nat), allOK)],
        (GetDescriptor a.1).isSome ∧ a.2 0 = true ∧ a.2 1 = true) ∧
    (deviceClose (runRegs openedDev
        [((DescSystemControl : Nat), allOK), ((DescTouchScreen : Nat), allOK)]).1).2.head? =
      some (DevAction.ctrl (controlT reqUnregisterHID 1 0 [])) :=
  ⟨by decide, (claim_C3_amended _ (by decide)).2 (by decide)⟩

/-- Counterexample to claim C4 as stated: with an empty serial filter and
two enumerated matching devices, `Open` accepts the device at index 1 — the
last match — not the first match at index 0. -/
theorem claim_C4_counterexample :
    aoaOpen "" ["A", "B"] false = .ok (1, openedDev) ∧ (1 : Nat) ≠ 0 :=
  ⟨rfl, by decide⟩

/-- Claim C4 (amended): `Open` accepts only devices matching the filter
(exact serial match when the filter is nonempty) and among the matches it
accepts the last, not the first; with an empty filter it accepts the last
enumerated device; it fails with a not-found error when no device
matches. -/
theorem claim_C4_amended (serial : String) (devs : List String) (e : Bool) :
    (∀ i d, aoaOpen serial devs e = .ok (i, d) →
        i < devs.length ∧ (serial = "" ∨ devs.get? i = some serial) ∧
        (∀ j, j < devs.length → (serial = "" ∨ devs.get? j = some serial) → j ≤ i) ∧
        d = openedDev) ∧
    (serial = "" → devs ≠ [] →
        aoaOpen serial devs e = .ok (devs.length - 1, openedDev)) ∧
    ((∀ j, j < devs.length → ¬(serial = "" ∨ devs.get? j = some serial)) →
        ∃ msg, aoaOpen serial devs e = .error msg) := by
  refine ⟨fun i d h => ?_, fun hs hne => ?_, fun h => ?_⟩
  · unfold aoaOpen at h
    split at h
    · exact absurd h (by simp)
    · cases hsel : openLoop serial 0 none devs with
      | none => rw [hsel] at h; exact absurd h (by simp)
      | some k =>
          rw [hsel] at h
          have hinj := Except.ok.inj h
          have hik : k = i := congrArg Prod.fst hinj
          have hd : d = openedDev := (congrArg Prod.snd hinj).symm
          subst hik hd
          rcases openLoop_sound serial devs 0 none k hsel with h' | ⟨j, hj, hm, rfl⟩
          · exact absurd h' (by simp)
          · refine ⟨by omega, by simpa using hm, fun j' hj' hm' => ?_, rfl⟩
            have := openLoop_last serial devs 0 none (0 + j) hsel j' hj' hm'
            omega
  · subst hs
    unfold aoaOpen
    rw [if_neg (by rintro ⟨_, h⟩; exact hne h), openLoop_empty devs 0 none hne]
    simp
  · unfold aoaOpen
    split
    · exact ⟨_, rfl⟩
    · rw [openLoop_acc serial devs 0 none h]
      exact ⟨_, rfl⟩

/-- Witness for C4 (amended): empty filter over two devices accepts the
last one. -/
theorem claim_C4_witness :
    ("" : String) = "" ∧ (["A", "B"] : List String) ≠ [] ∧
    aoaOpen "" ["A", "B"] false = .ok (1, openedDev) :=
  ⟨rfl, by decide, (claim_C4_amended "" ["A", "B"] false).2.1 rfl (by decide)⟩

/-! ### Manager trace lemmas -/

/-- A keep-awake tick never changes the session reference, the connection
state, the toggle flag, or the swipe direction. -/
theorem ping_mgr_fields (now : Nat) (m : Manager) :
    (keepAwakePing now m).mgr.dev = m.dev ∧
    (keepAwakePing now m).mgr.state = m.state ∧
    (keepAwakePing now m).mgr.pttToggled = m.pttToggled ∧
    (keepAwakePing now m).mgr.swipeLeft = m.swipeLeft := by
  unfold keepAwakePing
  split
  · exact ⟨rfl, rfl, rfl, rfl⟩
  · split
    · exact ⟨rfl, rfl, rfl, rfl⟩
    · split
      · split
        · exact ⟨rfl, rfl, rfl, rfl⟩
        · exact ⟨rfl, rfl, rfl, rfl⟩
      · exact ⟨rfl, rfl, rfl, rfl⟩

/-- A `Swipe` invoked without a session leaves the Manager unchanged. -/
theorem swipe_noDev (now : Nat) (ok : Nat → Bool) (m : Manager)
    (h : m.dev = none) : (Swipe now ok m).mgr = m := by
  simp [Swipe, h]

/-- A `Swipe` invoked with a session present flips the direction flag,
whatever the outcome of the gesture's transfers. -/
theorem swipe_flip (now : Nat) (ok : Nat → Bool) (m : Manager)
    (h : m.dev ≠ none) : (Swipe now ok m).mgr.swipeLeft = !m.swipeLeft := by
  unfold Swipe
  rw [if_neg h]
  dsimp only
  split <;> split <;> (try split) <;> rfl

/-- No Manager operation other than a session-present `Swipe` changes the
swipe direction flag. -/
theorem step_swipeLeft (m : Manager) (op : Op)
    (h : ∀ now ok, op = Op.swipe now ok → m.dev = none) :
    (stepOp m op).swipeLeft = m.swipeLeft := by
  cases op with
  | connect devs enumErr ok1 ok2 now =>
      simp only [stepOp]
      unfold tryConnect
      split
      · rfl
      · dsimp only
        split
        · rfl
        · try dsimp only
          split
          · rfl
          · exact (ping_mgr_fields now _).2.2.2
  | health pingOK =>
      simp only [stepOp]
      unfold healthCheck
      split
      · rfl
      · split
        · rfl
        · rfl
  | down now ok =>
      simp only [stepOp]
      unfold PTTDown
      split
      · rfl
      · dsimp only
        split
        · rfl
        · split
          · rfl
          · rfl
  | up now ok =>
      simp only [stepOp]
      unfold PTTUp
      split
      · rfl
      · dsimp only
        split
        · split
          · split
            · rfl
            · rfl
          · rfl
        · split
          · rfl
          · rfl
  | swipe now ok =>
      simp only [stepOp]
      rw [swipe_noDev now ok m (h now ok rfl)]
  | tick now =>
      simp only [stepOp]
      exact (ping_mgr_fields now m).2.2.2
  | close => rfl

/-- The Manager invariant the code actually maintains: the session reference
is absent exactly in the `Disconnected` state, and the toggle flag can only
be set while a session exists. -/
def MInv (m : Manager) : Prop :=
  (m.dev = none ↔ m.state = State.Disconnected) ∧
  (m.pttToggled = true → m.state ≠ State.Disconnected)

/-- A keep-awake tick preserves the invariant. -/
theorem ping_inv (now : Nat) (m : Manager) (h : MInv m) :
    MInv (keepAwakePing now m).mgr := by
  obtain ⟨f1, f2, f3, _⟩ := ping_mgr_fields now m
  unfold MInv
  rw [f1, f2, f3]
  exact h

/-- Every Manager operation preserves the invariant. -/
theorem stepOp_inv (m : Manager) (op : Op) (h : MInv m) : MInv (stepOp m op) := by
  obtain ⟨h1, h2⟩ := h
  cases op with
  | connect devs enumErr ok1 ok2 now =>
      simp only [stepOp]
      unfold tryConnect
      split
      · exact ⟨h1, h2⟩
      · dsimp only
        split
        · exact ⟨h1, h2⟩
        · try dsimp only
          split
          · exact ⟨h1, h2⟩
          · exact ping_inv now _ (by simp [MInv])
  | health pingOK =>
      simp only [stepOp]
      unfold healthCheck
      split
      · exact ⟨h1, h2⟩
      · split
        · exact ⟨h1, h2⟩
        · simp [MInv]
  | down now ok =>
      simp only [stepOp]
      unfold PTTDown
      split
      · exact ⟨h1, h2⟩
      · rename_i hd
        dsimp only
        split
        · exact ⟨h1, h2⟩
        · split
          · simp [MInv, hd, touchActivity]
          · simp [MInv, handleError, touchActivity]
  | up now ok =>
      simp only [stepOp]
      unfold PTTUp
      split
      · exact ⟨h1, h2⟩
      · rename_i hd
        dsimp only
        split
        · split
          · split
            · simp [MInv, hd]
            · simp [MInv, handleError]
          · exact ⟨h1, fun _ hst => hd (h1.mpr hst)⟩
        · split
          · simp [MInv, hd]
          · simp [MInv, handleError]
  | swipe now ok =>
      simp only [stepOp]
      unfold Swipe
      split
      · exact ⟨h1, h2⟩
      · dsimp only
        split <;> split
        · split
          · exact ⟨h1, h2⟩
          · simp [MInv, handleError, touchActivity]
        · simp [MInv, handleError, touchActivity]
        · split
          · exact ⟨h1, h2⟩
          · simp [MInv, handleError, touchActivity]
        · simp [MInv, handleError, touchActivity]
  | tick now => exact ping_inv now m ⟨h1, h2⟩
  | close => simp [MInv, MClose, stepOp]

/-- A run of operations preserves the invariant. -/
theorem runOps_inv (ops : List Op) :
    ∀ m : Manager, MInv m → MInv (runOps m ops) := by
  induction ops with
  | nil => intro m h; exact h
  | cons op rest ih => intro m h; exact ih (stepOp m op) (stepOp_inv m op h)

/-- A freshly created Manager satisfies the invariant. -/
theorem newManager_inv (serial : String) (now : Nat) :
    MInv (NewManager serial now) := by
  simp [MInv, NewManager]

/-- Counterexample to claim C9 as stated: a reachable Manager state (press,
health-check failure, reconnect, then a quick release) has the toggle flag
set while the state is `Connected`, not `PTTActive`. -/
theorem claim_C9_counterexample :
    (runOps (NewManager "" 0)
        [Op.connect ["X"] false allOK allOK 0, Op.down 0 allOK, Op.health false,
         Op.connect ["X"] false allOK allOK 40, Op.up 100 allOK]).pttToggled = true ∧
    (runOps (NewManager "" 0)
        [Op.connect ["X"] false allOK allOK 0, Op.down 0 allOK, Op.health false,
         Op.connect ["X"] false allOK allOK 40, Op.up 100 allOK]).state = State.Connected ∧
    (runOps (NewManager "" 0)
        [Op.connect ["X"] false allOK allOK 0, Op.down 0 allOK, Op.health false,
         Op.connect ["X"] false allOK allOK 40, Op.up 100 allOK]).state ≠ State.PTTActive := by
  decide

/-- Claim C9 (amended): in every Manager state reachable by any sequence of
Manager operations, `pttToggled = true` implies the state is not
`Disconnected` (i.e. it is `Connected` or `PTTActive`; the code does not
guarantee `PTTActive` specifically). -/
theorem claim_C9_amended (serial : String) (t0 : Nat) (ops : List Op)
    (h : (runOps (NewManager serial t0) ops).pttToggled = true) :
    (runOps (NewManager serial t0) ops).state ≠ State.Disconnected :=
  (runOps_inv ops (NewManager serial t0) (newManager_inv serial t0)).2 h

/-- Witness for C9 (amended): a short tap-release leaves the toggle flag set
in a non-Disconnected state. -/
theorem claim_C9_amended_witness :
    (runOps (NewManager "" 0)
        [Op.connect ["X"] false allOK allOK 0, Op.down 0 allOK,
         Op.up 100 allOK]).pttToggled = true ∧
    (runOps (NewManager "" 0)
        [Op.connect ["X"] false allOK allOK 0, Op.down 0 allOK,
         Op.up 100 allOK]).state ≠ State.Disconnected :=
  ⟨by decide, claim_C9_amended "" 0 _ (by decide)⟩

/-- The endpoint pairs recorded by a run of operations follow the strict
left/right alternation determined by the starting flag. -/
theorem runDirs_pattern (ops : List Op) :
    ∀ (m : Manager) (k : Nat), k < (runDirs m ops).length →
      (runDirs m ops).get? k = some (dirOf (m.swipeLeft == decide (k % 2 = 0))) := by
  induction ops with
  | nil => intro m k hk; simp [runDirs] at hk
  | cons op rest ih =>
      intro m k hk
      cases op with
      | swipe now ok =>
          by_cases hd : m.dev = none
          · simp only [runDirs, stepOp, if_pos hd, swipe_noDev now ok m hd] at hk ⊢
            exact ih m k hk
          · simp only [runDirs, stepOp, if_neg hd] at hk ⊢
            cases k with
            | zero => cases m.swipeLeft <;> rfl
            | succ k' =>
                have hk' : k' < (runDirs ((Swipe now ok m).mgr) rest).length := by
                  simpa using hk
                have hih := ih ((Swipe now ok m).mgr) k' hk'
                rw [swipe_flip now ok m hd] at hih
                rw [List.get?_cons_succ, hih]
                have hpar : decide ((k' + 1) % 2 = 0) = !decide (k' % 2 = 0) := by
                  rcases Nat.mod_two_eq_zero_or_one k' with h | h <;>
                    simp [Nat.add_mod, h]
                rw [hpar]
                cases m.swipeLeft <;> cases hq : decide (k' % 2 = 0) <;> rfl
      | connect devs enumErr ok1 ok2 now2 =>
          have hpres := step_swipeLeft m (Op.connect devs enumErr ok1 ok2 now2)
            (fun _ _ h => nomatch h)
          simp only [runDirs] at hk ⊢
          rw [← hpres]
          exact ih _ k hk
      | health pingOK =>
          have hpres := step_swipeLeft m (Op.health pingOK) (fun _ _ h => nomatch h)
          simp only [runDirs] at hk ⊢
          rw [← hpres]
          exact ih _ k hk
      | down now2 ok2 =>
          have hpres := step_swipeLeft m (Op.down now2 ok2) (fun _ _ h => nomatch h)
          simp only [runDirs] at hk ⊢
          rw [← hpres]
          exact ih _ k hk
      | up now2 ok2 =>
          have hpres := step_swipeLeft m (Op.up now2 ok2) (fun _ _ h => nomatch h)
          simp only [runDirs] at hk ⊢
          rw [← hpres]
          exact ih _ k hk
      | tick now2 =>
          have hpres := step_swipeLeft m (Op.tick now2) (fun _ _ h => nomatch h)
          simp only [runDirs] at hk ⊢
          rw [← hpres]
          exact ih _ k hk
      | close =>
          have hpres := step_swipeLeft m Op.close (fun _ _ h => nomatch h)
          simp only [runDirs] at hk ⊢
          rw [← hpres]
          exact ih _ k hk

/-- Counterexample to claim C2 as stated: a `Swipe` invoked with no session
fails and does not flip `swipeLeft`, so the flag does not flip on every
invocation regardless of outcome. -/
theorem claim_C2_counterexample :
    (NewManager "" 0).swipeLeft = true ∧
    (Swipe 5 allOK (NewManager "" 0)).err ≠ none ∧
    (Swipe 5 allOK (NewManager "" 0)).mgr.swipeLeft = true := by
  decide

/-- Claim C2 (amended): `swipeLeft` flips on every `Swipe` invocation that
finds a session present, regardless of the gesture's outcome (a no-session
invocation returns before flipping); starting from Manager creation, the
endpoint pairs used by the session-present invocations strictly alternate,
(27000, 5000) first. -/
theorem claim_C2_amended (serial : String) (t0 : Nat) (ops : List Op) :
    (∀ k, k < (runDirs (NewManager serial t0) ops).length →
        (runDirs (NewManager serial t0) ops).get? k =
          some (if k % 2 = 0 then (27000, 5000) else (5000, 27000))) ∧
    (∀ (m : Manager) (now : Nat) (ok : Nat → Bool), m.dev ≠ none →
        (Swipe now ok m).mgr.swipeLeft = !m.swipeLeft) := by
  constructor
  · intro k hk
    rw [runDirs_pattern ops (NewManager serial t0) k hk]
    by_cases h : k % 2 = 0 <;> simp [NewManager, dirOf, h]
  · exact fun m now ok hd => swipe_flip now ok m hd

/-- Witness for C2 (amended): after a connect, two swipes alternate left
then right. -/
theorem claim_C2_witness :
    0 < (runDirs (NewManager "" 0)
          [Op.connect ["X"] false allOK allOK 0, Op.swipe 1 allOK,
           Op.swipe 2 allOK]).length ∧
    (runDirs (NewManager "" 0)
        [Op.connect ["X"] false allOK allOK 0, Op.swipe 1 allOK,
         Op.swipe 2 allOK]).get? 0 = some (27000, 5000) ∧
    (runDirs (NewManager "" 0)
        [Op.connect ["X"] false allOK allOK 0, Op.swipe 1 allOK,
         Op.swipe 2 allOK]).get? 1 = some (5000, 27000) :=
  ⟨by decide, (claim_C2_amended "" 0 _).1 0 (by decide),
    (claim_C2_amended "" 0 _).1 1 (by decide)⟩

/-- Witness for C6: 61 minutes idle with a 60-minute threshold — the tick
emits nothing and sets the sleeping flag. -/
theorem claim_C6_witness :
    (⟨some ⟨3, [1, 2], 2⟩, State.Connected, "", 1, 2, false, 0, true, true, 60, 0,
        false⟩ : Manager).dev ≠ none ∧
    (60 : Int) * 60000 ≤ ((3660000 - (0 : Nat) : Nat) : Int) ∧
    (keepAwakePing 3660000
        (⟨some ⟨3, [1, 2], 2⟩, State.Connected, "", 1, 2, false, 0, true, true, 60, 0,
          false⟩ : Manager)).out = [] ∧
    (keepAwakePing 3660000
        (⟨some ⟨3, [1, 2], 2⟩, State.Connected, "", 1, 2, false, 0, true, true, 60, 0,
          false⟩ : Manager)).mgr.sleeping = true :=
  ⟨by decide, by decide,
    ((claim_C6 _ 3660000).2.1 (by decide) rfl rfl (by decide) (by decide)).1,
    ((claim_C6 _ 3660000).2.1 (by decide) rfl rfl (by decide) (by decide)).2⟩

/-- When every transfer succeeds, the touch-down loop of `Swipe` emits one
report per step. -/
theorem swipeDowns_all (hid : Nat) (ok : Nat → Bool) (s e y : Nat) :
    ∀ (k i : Nat), (∀ j, ok j = true) →
      swipeDowns hid ok s e y i k =
        ((List.range' i k).map fun a =>
            controlT reqSendHIDEvent hid 0 (TouchReport true (swipeX s e a) y),
          true) := by
  intro k
  induction k with
  | zero => intro i _; rfl
  | succ n ih =>
      intro i hok
      simp only [swipeDowns, hok i, if_true, ih (i + 1) hok, List.range'_succ,
        List.map_cons]

/-- When the transfer for step `j` is the first to fail, the touch-down loop
emits the reports for steps `i..j` (the failed send is still issued) and
stops. -/
theorem swipeDowns_stop (hid : Nat) (ok : Nat → Bool) (s e y j : Nat) :
    ∀ (k i : Nat), i ≤ j → j < i + k → ok j = false →
      (∀ a, a < j → ok a = true) →
      swipeDowns hid ok s e y i k =
        ((List.range' i (j + 1 - i)).map fun a =>
            controlT reqSendHIDEvent hid 0 (TouchReport true (swipeX s e a) y),
          false) := by
  intro k
  induction k with
  | zero => intro i h1 h2 _ _; omega
  | succ n ih =>
      intro i h1 h2 hj hlt
      simp only [swipeDowns]
      by_cases hij : i = j
      · subst hij
        simp [hj, Nat.add_sub_cancel_left, List.range'_one]
      · have hoki : ok i = true := hlt i (by omega)
        rw [hoki]
        simp only [if_true, ih (i + 1) (by omega) (by omega) hj hlt]
        have harith : j + 1 - i = (j + 1 - (i + 1)) + 1 := by omega
        rw [harith, List.range'_succ]
        simp

/-- The X coordinates the code computes agree with the spec formula
`start + (i/8)*(end − start)` under integer truncation, for both directions
and every step of the gesture. -/
theorem swipeX_formula :
    ∀ b : Bool, ∀ i, i ≤ 9 →
      swipeX (dirOf b).1 (dirOf b).2 i =
        (((dirOf b).1 : Int) +
            ((i : Int) * (((dirOf b).2 : Int) - ((dirOf b).1 : Int))) / 8).toNat := by
  decide

/-- A fully successful `Swipe` evaluated: direction flipped, wake sequence
followed by the nine interpolated touch-downs and the final touch-up, no
error. -/
theorem swipe_run (m : Manager) (now : Nat) (ok : Nat → Bool)
    (hdev : m.dev ≠ none) (hok : ∀ i, ok i = true) :
    Swipe now ok m =
      ⟨{ touchActivity now m with swipeLeft := !m.swipeLeft },
       [controlT reqSendHIDEvent m.pttHIDID 0 wakeUp,
        controlT reqSendHIDEvent m.pttHIDID 0 powerUp] ++
         ((List.range' 0 9).map fun a =>
             controlT reqSendHIDEvent m.touchHIDID 0
               (TouchReport true
                 (swipeX (if m.swipeLeft then 27000 else 5000)
                   (if m.swipeLeft then 5000 else 27000) a) 32590)) ++
         [controlT reqSendHIDEvent m.touchHIDID 0
           (TouchReport false (if m.swipeLeft then 5000 else 27000) 32590)],
       none⟩ := by
  have hw : wakeSeq ok (touchActivity now m) =
      [controlT reqSendHIDEvent m.pttHIDID 0 wakeUp,
       controlT reqSendHIDEvent m.pttHIDID 0 powerUp] := by
    simp [wakeSeq, touchActivity, hok 0]
  unfold Swipe
  rw [if_neg hdev]
  dsimp only
  rw [hw]
  rw [swipeDowns_all _ _ _ _ _ 9 0 (fun j => hok _)]
  simp [touchActivity, hok]

/-- A `Swipe` whose touch-down for step `j` is the first failing transfer,
evaluated: the gesture aborts after issuing the downs for steps `0..j`,
triggering the disconnect path. -/
theorem swipe_run_stop (m : Manager) (now : Nat) (ok : Nat → Bool) (j : Nat)
    (hdev : m.dev ≠ none) (hj : j < 9)
    (hok : ∀ i, ok i = decide (i < 2 + j)) :
    Swipe now ok m =
      ⟨handleError { touchActivity now m with swipeLeft := !m.swipeLeft },
       [controlT reqSendHIDEvent m.pttHIDID 0 wakeUp,
        controlT reqSendHIDEvent m.pttHIDID 0 powerUp] ++
         ((List.range' 0 (j + 1)).map fun a =>
             controlT reqSendHIDEvent m.touchHIDID 0
               (TouchReport true
                 (swipeX (if m.swipeLeft then 27000 else 5000)
                   (if m.swipeLeft then 5000 else 27000) a) 32590)),
       some "swipe step failed"⟩ := by
  have hw : wakeSeq ok (touchActivity now m) =
      [controlT reqSendHIDEvent m.pttHIDID 0 wakeUp,
       controlT reqSendHIDEvent m.pttHIDID 0 powerUp] := by
    simp [wakeSeq, touchActivity, hok 0]
  unfold Swipe
  rw [if_neg hdev]
  dsimp only
  rw [hw]
  rw [swipeDowns_stop _ _ _ _ _ j 9 0 (by omega) (by omega)
    (by simp [hok (2 + j)]) (fun a ha => by simp [hok (2 + a)]; omega)]
  simp [touchActivity]

/-- Filtering an operation output on the touch channel drops the two wake
reports (sent on the PTT channel) and keeps every touch-channel report. -/
theorem touch_filter (m : Manager) (hne : (m.pttHIDID == m.touchHIDID) = false)
    (l : List Transfer) (hl : ∀ t ∈ l, t.wValue = m.touchHIDID) :
    List.filter (fun t => t.wValue == m.touchHIDID)
      ([controlT reqSendHIDEvent m.pttHIDID 0 wakeUp,
        controlT reqSendHIDEvent m.pttHIDID 0 powerUp] ++ l) = l := by
  rw [List.filter_append]
  have h1 : List.filter (fun t => t.wValue == m.touchHIDID)
      [controlT reqSendHIDEvent m.pttHIDID 0 wakeUp,
       controlT reqSendHIDEvent m.pttHIDID 0 powerUp] = [] := by
    simp [controlT, hne]
  have h2 : List.filter (fun t => t.wValue == m.touchHIDID) l = l :=
    List.filter_eq_self.mpr fun t ht => by simp [hl t ht]
  rw [h1, h2, List.nil_append]

/-- Claim C7: with a session present and distinct PTT/touch ids, a fully
successful swipe emits on the touch channel exactly 9 touch-down reports for
steps 0..8 with X = start + (i/8)*(end − start) under integer truncation
(27000→5000 when the left flag is set, 5000→27000 otherwise, Y = 32590),
followed by exactly one touch-up at the terminal X; and a failure at any
touch-down step aborts the remainder of the gesture (reports after the
failing step, including the touch-up, are never issued). -/
theorem claim_C7 (m : Manager) (now : Nat)
    (hdev : m.dev ≠ none) (hids : m.pttHIDID ≠ m.touchHIDID) :
    (∀ ok : Nat → Bool, (∀ i, ok i = true) →
        (Swipe now ok m).err = none ∧
        ((Swipe now ok m).out.filter fun t => t.wValue == m.touchHIDID) =
          ((List.range 9).map fun (i : Nat) =>
              controlT reqSendHIDEvent m.touchHIDID 0
                (TouchReport true
                  ((((dirOf m.swipeLeft).1 : Int) +
                      ((i : Int) * (((dirOf m.swipeLeft).2 : Int) -
                        ((dirOf m.swipeLeft).1 : Int))) / 8).toNat)
                  32590)) ++
            [controlT reqSendHIDEvent m.touchHIDID 0
              (TouchReport false (dirOf m.swipeLeft).2 32590)]) ∧
    (∀ (ok : Nat → Bool) (j : Nat), j < 9 → (∀ i, ok i = decide (i < 2 + j)) →
        (Swipe now ok m).err ≠ none ∧
        ((Swipe now ok m).out.filter fun t => t.wValue == m.touchHIDID) =
          ((List.range (j + 1)).map fun (i : Nat) =>
              controlT reqSendHIDEvent m.touchHIDID 0
                (TouchReport true
                  ((((dirOf m.swipeLeft).1 : Int) +
                      ((i : Int) * (((dirOf m.swipeLeft).2 : Int) -
                        ((dirOf m.swipeLeft).1 : Int))) / 8).toNat)
                  32590))) := by
  have hne : (m.pttHIDID == m.touchHIDID) = false := by
    simpa using hids
  constructor
  · intro ok hok
    rw [swipe_run m now ok hdev hok]
    refine ⟨rfl, ?_⟩
    have hmem : ∀ t ∈ ((List.range' 0 9).map fun a =>
          controlT reqSendHIDEvent m.touchHIDID 0
            (TouchReport true
              (swipeX (if m.swipeLeft then 27000 else 5000)
                (if m.swipeLeft then 5000 else 27000) a) 32590)) ++
        [controlT reqSendHIDEvent m.touchHIDID 0
          (TouchReport false (if m.swipeLeft then 5000 else 27000) 32590)],
        t.wValue = m.touchHIDID := by
      intro t ht
      rcases List.mem_append.mp ht with ht | ht
      · rcases List.mem_map.mp ht with ⟨a, _, rfl⟩
        rfl
      · rw [List.mem_singleton.mp ht]
        rfl
    rw [List.append_assoc, touch_filter m hne _ hmem, List.range_eq_range']
    cases m.swipeLeft <;> congr 1
  · intro ok j hj hok
    rw [swipe_run_stop m now ok j hdev hj hok]
    refine ⟨by simp, ?_⟩
    have hmem : ∀ t ∈ (List.range' 0 (j + 1)).map fun a =>
          controlT reqSendHIDEvent m.touchHIDID 0
            (TouchReport true
              (swipeX (if m.swipeLeft then 27000 else 5000)
                (if m.swipeLeft then 5000 else 27000) a) 32590),
        t.wValue = m.touchHIDID := by
      intro t ht
      rcases List.mem_map.mp ht with ⟨a, _, rfl⟩
      rfl
    rw [touch_filter m hne _ hmem, List.range_eq_range']
    cases m.swipeLeft
    case false =>
      refine List.map_congr_left fun a ha => ?_
      have ha9 : a ≤ 9 := by
        have h9 := List.mem_range'_1.mp ha
        omega
      simpa [dirOf] using congrArg
        (fun x => controlT reqSendHIDEvent m.touchHIDID 0 (TouchReport true x 32590))
        (swipeX_formula false a ha9)
    case true =>
      refine List.map_congr_left fun a ha => ?_
      have ha9 : a ≤ 9 := by
        have h9 := List.mem_range'_1.mp ha
        omega
      simpa [dirOf] using congrArg
        (fun x => controlT reqSendHIDEvent m.touchHIDID 0 (TouchReport true x 32590))
        (swipeX_formula true a ha9)

/-- Witness for C7: a concrete left swipe with all transfers succeeding. -/
theorem claim_C7_witness :
    (⟨some ⟨3, [1, 2], 2⟩, State.Connected, "", 1, 2, false, 0, true, true, 60, 0,
        false⟩ : Manager).dev ≠ none ∧
    (⟨some ⟨3, [1, 2], 2⟩, State.Connected, "", 1, 2, false, 0, true, true, 60, 0,
        false⟩ : Manager).pttHIDID ≠ 2 ∧
    (Swipe 7 allOK
        (⟨some ⟨3, [1, 2], 2⟩, State.Connected, "", 1, 2, false, 0, true, true, 60, 0,
          false⟩ : Manager)).err = none :=
  ⟨by decide, by decide,
    ((claim_C7 _ 7 (by decide) (by decide)).1 allOK fun _ => rfl).1⟩

end R1Control
